import Mathlib

/-!
Verification of the windowed data-navigation and annotation-merge engine of the
SmartWatch-Visualizer repository.

The definitions below are a shallow embedding of `src/data/data.py`
(class `FullSensorData`) and `src/data/gps.py` (classes `GPSData` and
`WatchGPSData`).  Python integers are modelled as `Int`, Python floats as
`Rat`, rows and runs as structures, lists as `List`.  Methods that can raise
at runtime (an out-of-range list access, or an unguarded call of an absent
callback) are modelled as `Except σ σ`, where the error value is the state
at the moment the exception is raised.  The rendering caches rebuilt by
`update_gps_data_frame` (colors, sizes, geo data frame) are outside the
modelled state, so that method is embedded as a check that its loop and its
final `sizes[-1]` assignment complete, returning the state unchanged.
-/

deriving instance DecidableEq for Except

namespace SWViz

/-- Truncation toward zero, the behaviour of the Python `int()` conversion
applied to a float.  For a nonnegative argument it agrees with `Int.floor`. -/
def pyTrunc (q : ℚ) : ℤ :=
  if 0 ≤ q then ⌊q⌋ else -⌊-q⌋

/-- Effective position of a Python list index: a nonnegative index must be
below the length, a negative index wraps from the end; anything else is an
IndexError, reported as `none`. -/
def pyIdx (n : ℕ) (i : ℤ) : Option ℕ :=
  if 0 ≤ i ∧ i < (n : ℤ) then some i.toNat
  else if -(n : ℤ) ≤ i ∧ i < 0 then some ((n : ℤ) + i).toNat
  else none

/-- Runs the body of a Python loop `for i in range(start, start + cnt)` whose
body reads and writes the element at index `i`, applying `upd` to it.  Raises
(returns `Except.error` with the list as mutated so far) at the first invalid
index. -/
def setRangeLoop {α : Type} (upd : α → α) :
    List α → ℤ → ℕ → Except (List α) (List α)
  | dat, _, 0 => .ok dat
  | dat, i, k + 1 =>
    match pyIdx dat.length i with
    | none => .error dat
    | some j =>
      match dat.get? j with
      | none => .error dat
      | some x => setRangeLoop upd (dat.set j (upd x)) (i + 1) k

/-- Checks that every read in a Python loop `for i in range(start, start + cnt)`
over a list of length `n` succeeds. -/
def allAccessOk (n : ℕ) : ℤ → ℕ → Bool
  | _, 0 => true
  | i, k + 1 => (pyIdx n i).isSome && allAccessOk n (i + 1) k

/-- The two-way dictionary GPS_VALID_DICT of data.py, in the direction
Bool to serialized string. -/
def gpsValidDict (b : Bool) : String :=
  if b then "1" else "0"

/-- The two-way dictionary GPS_VALID_DICT of data.py, in the direction
serialized string to Bool.  It is only ever applied to the strings 0 and 1
produced by the loader itself. -/
def gpsValidOfStr (v : String) : Bool :=
  v == "1"

/-- One GPS run, class GPSData of gps.py (stamps are abstracted to ordinals,
which is all the claims observe of them). -/
structure GPSData where
  longitude : ℚ
  latitude : ℚ
  start_stamp : ℕ
  last_stamp : ℕ
  count : ℤ
  is_valid : Bool
  first_index : ℤ
  last_index : ℤ
deriving Repr, DecidableEq

instance : Inhabited GPSData :=
  ⟨⟨0, 0, 0, 0, 0, true, 0, 0⟩⟩

/-- The state of class WatchGPSData of gps.py, restricted to the fields the
core operates on (the rendering caches and the lon/lat bounding fields are
write-only outputs). -/
structure WatchGPSData where
  has_data : Bool
  data_has_changed : Bool
  index : ℤ
  data_size : ℤ
  gps_data : List GPSData
  gps_window : ℤ
  window_size_adj_rate : ℤ
  step_delta_rate : ℤ
deriving Repr, DecidableEq

/-- Constructor defaults of WatchGPSData (gps.py lines 54 to 71). -/
def WatchGPSData.init : WatchGPSData :=
  { has_data := false
    data_has_changed := false
    index := 0
    data_size := 0
    gps_data := []
    gps_window := 10
    window_size_adj_rate := 1
    step_delta_rate := 1 }

/-- update_gps_data_frame of gps.py: the loop reads gps_data at every index in
range(index, index + gps_window) and afterwards assigns sizes[-1], which
demands at least one loop iteration.  The fields it writes are rendering
caches outside the modelled state, so the method either completes and leaves
the modelled state unchanged, or raises. -/
def WatchGPSData.update_gps_data_frame (g : WatchGPSData) :
    Except WatchGPSData WatchGPSData :=
  if allAccessOk g.gps_data.length g.index g.gps_window.toNat ∧ 1 ≤ g.gps_window
  then .ok g else .error g

/-- increase_window_size of gps.py (lines 123 to 129). -/
def WatchGPSData.increase_window_size (g : WatchGPSData) :
    Except WatchGPSData (WatchGPSData × Bool) :=
  if g.index + g.gps_window + g.window_size_adj_rate < g.data_size then
    ({ g with gps_window := g.gps_window + g.window_size_adj_rate
      }).update_gps_data_frame.map (fun g₁ => (g₁, true))
  else .ok (g, false)

/-- decrease_window_size of gps.py (lines 131 to 137). -/
def WatchGPSData.decrease_window_size (g : WatchGPSData) :
    Except WatchGPSData (WatchGPSData × Bool) :=
  if g.gps_window - g.window_size_adj_rate ≥ 1 then
    ({ g with gps_window := g.gps_window - g.window_size_adj_rate
      }).update_gps_data_frame.map (fun g₁ => (g₁, true))
  else .ok (g, false)

/-- step_forward of gps.py (lines 139 to 145); note the strict bound. -/
def WatchGPSData.step_forward (g : WatchGPSData) :
    Except WatchGPSData (WatchGPSData × Bool) :=
  if g.index + g.gps_window + g.step_delta_rate < g.data_size then
    ({ g with index := g.index + g.step_delta_rate
      }).update_gps_data_frame.map (fun g₁ => (g₁, true))
  else .ok (g, false)

/-- step_backward of gps.py (lines 147 to 153). -/
def WatchGPSData.step_backward (g : WatchGPSData) :
    Except WatchGPSData (WatchGPSData × Bool) :=
  if g.index - g.step_delta_rate ≥ 0 then
    ({ g with index := g.index - g.step_delta_rate
      }).update_gps_data_frame.map (fun g₁ => (g₁, true))
  else .ok (g, false)

/-- goto_index of gps.py (lines 155 to 159): for a click fraction inside
[0, 1] the position becomes int(f * (data_size - gps_window)). -/
def WatchGPSData.goto_index (f : ℚ) (g : WatchGPSData) :
    Except WatchGPSData WatchGPSData :=
  if 0 ≤ f ∧ f ≤ 1 then
    ({ g with index := pyTrunc (f * ((g.data_size : ℚ) - (g.gps_window : ℚ)))
      }).update_gps_data_frame
  else .ok g

/-- mark_window_invalid of gps.py (lines 196 to 201): clears is_valid on every
run at a position in range(index, index + gps_window), sets the dirty flag,
then rebuilds the frame. -/
def WatchGPSData.mark_window_invalid (g : WatchGPSData) :
    Except WatchGPSData WatchGPSData :=
  match setRangeLoop (fun r => { r with is_valid := false })
      g.gps_data g.index g.gps_window.toNat with
  | .error dat => .error { g with gps_data := dat }
  | .ok dat =>
    ({ g with gps_data := dat, data_has_changed := true }).update_gps_data_frame

/-- mark_window_valid of gps.py (lines 203 to 208). -/
def WatchGPSData.mark_window_valid (g : WatchGPSData) :
    Except WatchGPSData WatchGPSData :=
  match setRangeLoop (fun r => { r with is_valid := true })
      g.gps_data g.index g.gps_window.toNat with
  | .error dat => .error { g with gps_data := dat }
  | .ok dat =>
    ({ g with gps_data := dat, data_has_changed := true }).update_gps_data_frame

/-- apply_window_variable_logic of gps.py (lines 89 to 97).  The Python
expression int(data_size / 2) truncates toward zero, which on the
nonnegative sizes involved is integer division by two. -/
def WatchGPSData.apply_window_variable_logic (g : WatchGPSData) : WatchGPSData :=
  if g.has_data then
    let g₁ := if g.data_size < g.gps_window
      then { g with gps_window := g.data_size } else g
    let g₂ := if g₁.data_size < g₁.window_size_adj_rate
      then { g₁ with window_size_adj_rate := g₁.data_size / 2 } else g₁
    if g₂.data_size < g₂.step_delta_rate
      then { g₂ with step_delta_rate := g₂.data_size / 2 } else g₂
  else g

/-- load_data_init of gps.py (lines 250 to 258).  The step rates are not
reset. -/
def WatchGPSData.load_data_init (g : WatchGPSData) : WatchGPSData :=
  { g with gps_data := []
           has_data := false
           data_has_changed := false
           index := 0
           data_size := 0
           gps_window := 10 }

/-- load_data_end of gps.py (lines 260 to 269).  The final
update_gps_data_frame call cannot raise here: the window has just been
clamped into [1, data_size] and the position is 0, so every access of its
loop is in range; it only rebuilds rendering caches, which are outside the
modelled state. -/
def WatchGPSData.load_data_end (g : WatchGPSData) : WatchGPSData :=
  if g.gps_data.length > 0 then
    ({ g with data_size := (g.gps_data.length : ℤ)
              has_data := true
              data_has_changed := false }).apply_window_variable_logic
  else g.load_data_init

/-- One record of the Row Store: the reserved fields of a row dictionary of
data.py.  The opaque per-sample float channels (yaw, accelerations, ...) are
not observed by any modelled operation and are dropped; is_gps_valid holds
the GPS_VALID_DICT-encoded string exactly as stored in the row. -/
structure SensorRow where
  stamp : ℕ
  latitude : Option ℚ
  longitude : Option ℚ
  is_gps_valid : String
  activity_label : Option String
  user_activity_label : Option String
  notes : Option String
deriving Repr, DecidableEq

instance : Inhabited SensorRow :=
  ⟨⟨0, none, none, "1", none, none, none⟩⟩

/-- DEFAULT_SENSOR_WINDOW of data.py. -/
def DEFAULT_SENSOR_WINDOW : ℤ := 500

/-- The state of class FullSensorData of data.py, restricted to the fields
the core operates on (annotation legend bookkeeping and the plotting caches
are outputs of excluded rendering code). -/
structure FullSensorData where
  has_data : Bool
  data_has_changed : Bool
  index : ℤ
  data_size : ℤ
  sensor_data : List SensorRow
  sensor_window : ℤ
  window_size_adj_rate : ℤ
  step_delta_rate : ℤ
  fields : List String
deriving Repr, DecidableEq

/-- Constructor defaults of FullSensorData (data.py lines 48 to 74). -/
def FullSensorData.init : FullSensorData :=
  { has_data := false
    data_has_changed := false
    index := 0
    data_size := 0
    sensor_data := []
    sensor_window := DEFAULT_SENSOR_WINDOW
    window_size_adj_rate := 10
    step_delta_rate := 10
    fields := [] }

/-- increase_window_size of data.py (lines 124 to 129); note the nonstrict
bound, unlike the GPS variant. -/
def FullSensorData.increase_window_size (s : FullSensorData) :
    FullSensorData × Bool :=
  if s.index + s.sensor_window + s.window_size_adj_rate ≤ s.data_size then
    ({ s with sensor_window := s.sensor_window + s.window_size_adj_rate }, true)
  else (s, false)

/-- decrease_window_size of data.py (lines 131 to 136). -/
def FullSensorData.decrease_window_size (s : FullSensorData) :
    FullSensorData × Bool :=
  if s.sensor_window - s.window_size_adj_rate ≥ 1 then
    ({ s with sensor_window := s.sensor_window - s.window_size_adj_rate }, true)
  else (s, false)

/-- step_forward of data.py (lines 138 to 143); nonstrict bound. -/
def FullSensorData.step_forward (s : FullSensorData) : FullSensorData × Bool :=
  if s.index + s.sensor_window + s.step_delta_rate ≤ s.data_size then
    ({ s with index := s.index + s.step_delta_rate }, true)
  else (s, false)

/-- step_backward of data.py (lines 145 to 150). -/
def FullSensorData.step_backward (s : FullSensorData) : FullSensorData × Bool :=
  if s.index - s.step_delta_rate ≥ 0 then
    ({ s with index := s.index - s.step_delta_rate }, true)
  else (s, false)

/-- goto_index of data.py (lines 152 to 155). -/
def FullSensorData.goto_index (f : ℚ) (s : FullSensorData) : FullSensorData :=
  if 0 ≤ f ∧ f ≤ 1 then
    { s with index := pyTrunc (f * ((s.data_size : ℚ) - (s.sensor_window : ℚ))) }
  else s

/-- apply_window_variable_logic of data.py (lines 90 to 98). -/
def FullSensorData.apply_window_variable_logic (s : FullSensorData) :
    FullSensorData :=
  if s.has_data then
    let s₁ := if s.data_size < s.sensor_window
      then { s with sensor_window := s.data_size } else s
    let s₂ := if s₁.data_size < s₁.window_size_adj_rate
      then { s₁ with window_size_adj_rate := s₁.data_size / 2 } else s₁
    if s₂.data_size < s₂.step_delta_rate
      then { s₂ with step_delta_rate := s₂.data_size / 2 } else s₂
  else s

/-- add_note of data.py (lines 185 to 191): marks the store dirty, converts
the empty message to null, then assigns the notes field of every row at an
index in range(index, index + sensor_window). -/
def FullSensorData.add_note (msg : String) (s : FullSensorData) :
    Except FullSensorData FullSensorData :=
  let m : Option String := if msg = "" then none else some msg
  let s₀ : FullSensorData := { s with data_has_changed := true }
  match setRangeLoop (fun r => { r with notes := m })
      s₀.sensor_data s₀.index s₀.sensor_window.toNat with
  | .error dat => .error { s₀ with sensor_data := dat }
  | .ok dat => .ok { s₀ with sensor_data := dat }

/-- The valid-window predicate of the specification for the sensor cursor,
together with the data-model fact that data_size mirrors the length of the
stored sequence. -/
def FullSensorData.ValidWindow (s : FullSensorData) : Prop :=
  0 ≤ s.index ∧ s.index + s.sensor_window ≤ s.data_size ∧
    1 ≤ s.sensor_window ∧ s.data_size = (s.sensor_data.length : ℤ)

instance (s : FullSensorData) : Decidable s.ValidWindow := by
  unfold FullSensorData.ValidWindow; infer_instance

/-- The valid-window predicate of the specification for the GPS cursor,
together with the data-model fact that data_size mirrors the length of the
run sequence. -/
def WatchGPSData.ValidWindow (g : WatchGPSData) : Prop :=
  0 ≤ g.index ∧ g.index + g.gps_window ≤ g.data_size ∧
    1 ≤ g.gps_window ∧ g.data_size = (g.gps_data.length : ℤ)

instance (g : WatchGPSData) : Decidable g.ValidWindow := by
  unfold WatchGPSData.ValidWindow; infer_instance

/-- The row mutation performed by the inner loop of merge_data_changes:
the assignment of GPS_VALID_DICT[gps_row.is_valid] to the is_gps_valid field
(data.py line 725). -/
def setGpsValid (b : Bool) (r : SensorRow) : SensorRow :=
  { r with is_gps_valid := gpsValidDict b }

/-- The per-run outer loop of merge_data_changes (data.py lines 718 to 725).
For every run the progress callback is invoked, with no guard for its
absence, before the inner loop writes the GPS_VALID_DICT encoding of the
is_valid flag of the run into every row at an index in
range(first_index, last_index + 1).  Returns the row list and the number of
callback invocations; an absent callback or an out-of-range row index raises,
carrying the rows as mutated so far. -/
def mergeRuns (cb : Option Unit) :
    List GPSData → List SensorRow → Except (List SensorRow) (List SensorRow × ℕ)
  | [], dat => .ok (dat, 0)
  | run :: rest, dat =>
    match cb with
    | none => .error dat
    | some _ =>
      match setRangeLoop (setGpsValid run.is_valid)
          dat run.first_index (run.last_index + 1 - run.first_index).toNat with
      | .error dat₁ => .error dat₁
      | .ok dat₁ =>
        match mergeRuns cb rest dat₁ with
        | .error dat₂ => .error dat₂
        | .ok (dat₂, n) => .ok (dat₂, n + 1)

/-- merge_data_changes of data.py (lines 713 to 727).  If the GPS layer is
clean only a diagnostic notice is printed and nothing changes.  Otherwise the
sensor dirty flag is set first; then every GPS run is walked (see mergeRuns);
on completion the GPS dirty flag is cleared.  The returned number counts the
progress-callback invocations. -/
def FullSensorData.merge_data_changes (cb : Option Unit) (s : FullSensorData)
    (g : WatchGPSData) :
    Except (FullSensorData × WatchGPSData) (FullSensorData × WatchGPSData × ℕ) :=
  if g.data_has_changed = false then .ok (s, g, 0)
  else
    let s₀ : FullSensorData := { s with data_has_changed := true }
    match mergeRuns cb g.gps_data s₀.sensor_data with
    | .error dat => .error ({ s₀ with sensor_data := dat }, g)
    | .ok (dat, n) =>
      .ok ({ s₀ with sensor_data := dat }, { g with data_has_changed := false }, n)

/-- What the writer collaborator received during a save: the field order
passed to set_fields and write_headers (when they were reached), and the rows
given to write_row_dict, in call order. -/
structure WriterLog where
  fieldsSet : Option (List String)
  rows : List SensorRow
deriving Repr, DecidableEq

/-- The row loop of save_data (data.py lines 737 to 745): at every count
divisible by 500 the progress callback is invoked with no guard for its
absence, then the row is written.  Returns the rows written; raises if the
callback is invoked while absent, carrying the rows written so far. -/
def saveRows (cb : Option Unit) :
    List SensorRow → ℤ → Except (List SensorRow) (List SensorRow)
  | [], _ => .ok []
  | row :: rest, count =>
    if count % 500 = 0 ∧ cb = none then .error []
    else
      match saveRows cb rest (count + 1) with
      | .error ws => .error (row :: ws)
      | .ok ws => .ok (row :: ws)

/-- save_data of data.py (lines 729 to 751).  A clean store prints a notice
and touches no writer; otherwise the writer receives the stored field order
and every row in sequence, after which the dirty flag is cleared.  The final
Bool records whether the guarded done callback was invoked. -/
def FullSensorData.save_data (cb dcb : Option Unit) (s : FullSensorData) :
    Except (FullSensorData × WriterLog) (FullSensorData × WriterLog × Bool) :=
  if s.data_has_changed = false then
    .ok (s, ⟨none, []⟩, dcb.isSome)
  else
    match saveRows cb s.sensor_data 0 with
    | .error ws => .error (s, ⟨some s.fields, ws⟩)
    | .ok ws =>
      .ok ({ s with data_has_changed := false }, ⟨some s.fields, ws⟩, dcb.isSome)

/-- Which of the four reserved columns the input file declares
(data.py lines 636 to 651). -/
structure LoadSchema where
  has_user : Bool
  has_label : Bool
  has_gps_valid : Bool
  has_notes : Bool
deriving Repr, DecidableEq

/-- The reserved-field defaulting applied to each incoming row
(data.py lines 664 to 671): a column the file lacks is filled with null,
except is_gps_valid which is filled with GPS_VALID_DICT[DEFAULT_IS_VALID]. -/
def defaultedRow (sch : LoadSchema) (row : SensorRow) : SensorRow :=
  let row := if sch.has_user then row else { row with user_activity_label := none }
  let row := if sch.has_label then row else { row with activity_label := none }
  let row := if sch.has_gps_valid then row
    else { row with is_gps_valid := gpsValidDict true }
  if sch.has_notes then row else { row with notes := none }

/-- Accumulator of the row loop of load_data: the Row Store built so far, the
GPS runs built so far, the has_data flag of the GPS layer, the cur_lat and
cur_lon locals (initialised to the sentinel -1.0), the running row count, and
the number of progress-callback invocations. -/
structure LoadState where
  sensor : List SensorRow
  gps : List GPSData
  gpsHasData : Bool
  curLat : ℚ
  curLon : ℚ
  count : ℤ
  cbCalls : ℕ
deriving Repr, DecidableEq

/-- Initial accumulator of the row loop (data.py lines 652 to 654). -/
def LoadState.start : LoadState :=
  { sensor := [], gps := [], gpsHasData := false
    curLat := -1, curLon := -1, count := 0, cbCalls := 0 }

/-- Extension of the most recent GPS run (data.py lines 697 to 700):
count grows by one, last_stamp and last_index move to the current row. -/
def extendLastRun (stamp : ℕ) (idx : ℤ) : List GPSData → List GPSData
  | [] => []
  | [r] => [{ r with count := r.count + 1, last_stamp := stamp, last_index := idx }]
  | r :: rest => r :: extendLastRun stamp idx rest

/-- One iteration of the row loop of load_data (data.py lines 655 to 701):
progress reporting every 1000 rows when a callback is supplied, reserved
field defaulting, appending the row to the Row Store, and GPS run
construction keyed on the cur_lat and cur_lon locals. -/
def loadRow (cb : Option Unit) (sch : LoadSchema) (st : LoadState)
    (raw : SensorRow) : LoadState :=
  let calls := if st.count % 1000 = 0 ∧ cb.isSome then st.cbCalls + 1 else st.cbCalls
  let row := defaultedRow sch raw
  let st := { st with sensor := st.sensor ++ [row], cbCalls := calls }
  let st :=
    match row.latitude, row.longitude with
    | some la, some lo =>
      if la ≠ st.curLat ∨ lo ≠ st.curLon then
        let newRun : GPSData :=
          { longitude := lo, latitude := la
            start_stamp := row.stamp, last_stamp := row.stamp
            count := 1
            is_valid := gpsValidOfStr row.is_gps_valid
            first_index := st.count, last_index := st.count }
        { st with
          gps := st.gps ++ [newRun]
          gpsHasData := true
          curLat := la
          curLon := lo }
      else if st.gpsHasData then
        { st with gps := extendLastRun row.stamp st.count st.gps }
      else st
    | _, _ => st
  { st with count := st.count + 1 }

/-- USER_FIELD, LABEL_FIELD, GPS_VALID_FIELD and NOTE_FIELD of data.py. -/
def USER_FIELD : String := "user_activity_label"

/-- LABEL_FIELD of data.py. -/
def LABEL_FIELD : String := "activity_label"

/-- GPS_VALID_FIELD of data.py. -/
def GPS_VALID_FIELD : String := "is_gps_valid"

/-- NOTE_FIELD of data.py. -/
def NOTE_FIELD : String := "notes"

/-- load_data of data.py (lines 611 to 711), over an already parsed file:
`baseFields` is the field order declared by the file and `rows` its data
rows (values of columns the file lacks are ignored by the defaulting).
Resets both layers, appends the missing reserved columns to the field order,
folds the row loop, and on a nonempty result finalises both layers.  Returns
both states and the number of progress-callback invocations. -/
def FullSensorData.load_data (cb : Option Unit) (sch : LoadSchema)
    (baseFields : List String) (rows : List SensorRow)
    (s : FullSensorData) (g : WatchGPSData) :
    FullSensorData × WatchGPSData × ℕ :=
  let fields := baseFields
    ++ (if sch.has_user then [] else [USER_FIELD])
    ++ (if sch.has_label then [] else [LABEL_FIELD])
    ++ (if sch.has_gps_valid then [] else [GPS_VALID_FIELD])
    ++ (if sch.has_notes then [] else [NOTE_FIELD])
  let s₀ : FullSensorData :=
    { s with sensor_data := [], has_data := false, data_has_changed := false
             index := 0, data_size := 0, sensor_window := DEFAULT_SENSOR_WINDOW
             fields := fields }
  let g₀ := g.load_data_init
  let st := rows.foldl (loadRow cb sch) LoadState.start
  let s₁ : FullSensorData := { s₀ with sensor_data := st.sensor }
  let g₁ : WatchGPSData := { g₀ with gps_data := st.gps, has_data := st.gpsHasData }
  if st.sensor.length > 0 then
    let g₂ := g₁.load_data_end
    let s₂ : FullSensorData :=
      ({ s₁ with data_size := (st.sensor.length : ℤ), has_data := true
                 data_has_changed := false }).apply_window_variable_logic
    (s₂, g₂, st.cbCalls)
  else (s₁, g₁, st.cbCalls)

/-- The state a raising or completing method left behind, for stating
concrete evaluations. -/
def exVal {σ : Type} : Except σ σ → σ
  | .ok a => a
  | .error a => a

/-- Whether a modelled method raised. -/
def isErr {σ α : Type} : Except σ α → Bool
  | .error _ => true
  | .ok _ => false

/-- Specification vocabulary: the validity flag of the last run in the list
covering row index `i`, if any.  During a merge a later run overwrites the
rows it shares with an earlier one, so the last covering run determines the
final value. -/
def coveringValid : List GPSData → ℤ → Option Bool
  | [], _ => none
  | run :: rest, i =>
    match coveringValid rest i with
    | some b => some b
    | none =>
      if run.first_index ≤ i ∧ i ≤ run.last_index then some run.is_valid else none

/-- Specification vocabulary: the effect of a merge on one stored row lookup,
given the validity flag of the last covering run, if any. -/
def applyCover (cv : Option Bool) (o : Option SensorRow) : Option SensorRow :=
  match cv with
  | some b => o.map (setGpsValid b)
  | none => o

/-- A placeholder GPS run for building concrete cursor states. -/
def someRun : GPSData :=
  { longitude := 3, latitude := 4, start_stamp := 0, last_stamp := 0
    count := 1, is_valid := true, first_index := 0, last_index := 0 }

/-- A concrete valid sensor cursor state: five records, window of length
two at position zero, both step rates one. -/
def sFive : FullSensorData :=
  { FullSensorData.init with
      has_data := true
      data_size := 5
      sensor_data := List.replicate 5 default
      sensor_window := 2
      window_size_adj_rate := 1
      step_delta_rate := 1 }

/-- A concrete valid GPS cursor state: five runs, window of length two at
position zero, both step rates one. -/
def gFive : WatchGPSData :=
  { WatchGPSData.init with
      has_data := true
      data_size := 5
      gps_data := List.replicate 5 someRun
      gps_window := 2
      window_size_adj_rate := 1
      step_delta_rate := 1 }

/-- The five-run GPS cursor after one forward step of size one. -/
def gFiveStepped : WatchGPSData :=
  { WatchGPSData.init with
      has_data := true
      data_size := 5
      gps_data := List.replicate 5 someRun
      gps_window := 2
      window_size_adj_rate := 1
      step_delta_rate := 1
      index := 1 }

/-- A concrete sensor cursor sitting exactly at the step boundary:
start_index 0, length 2, step 1, sequence size 3. -/
def sBoundary : FullSensorData :=
  { FullSensorData.init with
      has_data := true
      data_size := 3
      sensor_data := List.replicate 3 default
      sensor_window := 2
      window_size_adj_rate := 1
      step_delta_rate := 1 }

/-- A concrete GPS cursor sitting exactly at the step boundary:
start_index 0, length 2, step 1, sequence size 3. -/
def gBoundary : WatchGPSData :=
  { WatchGPSData.init with
      has_data := true
      data_size := 3
      gps_data := List.replicate 3 someRun
      gps_window := 2
      window_size_adj_rate := 1
      step_delta_rate := 1 }

/-- A concrete valid GPS cursor state with twenty runs and a window of
length ten at position zero. -/
def gTwenty : WatchGPSData :=
  { WatchGPSData.init with
      has_data := true
      data_size := 20
      gps_data := List.replicate 20 someRun
      gps_window := 10 }

/-- A concrete sensor store with two records and the window covering both. -/
def sTwoRows : FullSensorData :=
  { FullSensorData.init with
      has_data := true
      data_size := 2
      sensor_data := List.replicate 2 default
      sensor_window := 2
      window_size_adj_rate := 1
      step_delta_rate := 1 }

/-- A concrete dirty GPS index with five runs. -/
def gDirty : WatchGPSData :=
  { WatchGPSData.init with
      has_data := true
      data_has_changed := true
      data_size := 5
      gps_data := List.replicate 5 someRun
      gps_window := 2
      window_size_adj_rate := 1
      step_delta_rate := 1 }

/-- A concrete dirty sensor store holding one record. -/
def sDirtyOne : FullSensorData :=
  { FullSensorData.init with
      has_data := true
      data_has_changed := true
      data_size := 1
      sensor_data := [default]
      sensor_window := 1
      fields := ["stamp"] }

/-- A three-row input file: a GPS fix at (1, 1), a row without coordinates,
then a fix at (2, 2).  Loading it produces two single-row GPS runs with a
coverage gap at row one. -/
def fileRows3 : List SensorRow :=
  [{ stamp := 0, latitude := some 1, longitude := some 1, is_gps_valid := "1"
     activity_label := none, user_activity_label := none, notes := none },
   { stamp := 1, latitude := none, longitude := none, is_gps_valid := "1"
     activity_label := none, user_activity_label := none, notes := none },
   { stamp := 2, latitude := some 2, longitude := some 2, is_gps_valid := "1"
     activity_label := none, user_activity_label := none, notes := none }]

/-- A schema declaring none of the four reserved columns, the defaulting
path of the loader. -/
def bareSchema : LoadSchema :=
  { has_user := false, has_label := false, has_gps_valid := false, has_notes := false }

/-- The result of loading fileRows3 into fresh stores. -/
def loaded3 : FullSensorData × WatchGPSData × ℕ :=
  FullSensorData.load_data (some ()) bareSchema ["stamp"] fileRows3
    FullSensorData.init WatchGPSData.init

/-- The GPS layer of loaded3 after marking the current window (which covers
both runs) invalid. -/
def marked3 : WatchGPSData :=
  exVal (loaded3.2.1.mark_window_invalid)

/-- Both layers after merging the marked GPS edits of loaded3 back into the
Row Store. -/
def merged3 : FullSensorData × WatchGPSData :=
  match FullSensorData.merge_data_changes (some ()) loaded3.1 marked3 with
  | .ok (s, g, _) => (s, g)
  | .error p => p

/-- A single-row input file whose only fix sits exactly at the
(-1.0, -1.0) sentinel that load_data uses to initialise its cur_lat and
cur_lon locals (data.py lines 653 to 654). -/
def sentinelFile : List SensorRow :=
  [{ stamp := 0, latitude := some (-1), longitude := some (-1), is_gps_valid := "1"
     activity_label := none, user_activity_label := none, notes := none }]

/-! ### Helper lemmas about the loop embeddings -/

theorem pyIdx_of_bounds (n : ℕ) (i : ℤ) (h0 : 0 ≤ i) (h1 : i < (n : ℤ)) :
    pyIdx n i = some i.toNat := by
  unfold pyIdx
  rw [if_pos ⟨h0, h1⟩]

theorem allAccessOk_of_bounds (n : ℕ) :
    ∀ (cnt : ℕ) (start : ℤ), 0 ≤ start → start + (cnt : ℤ) ≤ (n : ℤ) →
      allAccessOk n start cnt = true := by
  intro cnt
  induction cnt with
  | zero => intro start _ _; rfl
  | succ k ih =>
    intro start h0 h1
    unfold allAccessOk
    rw [pyIdx_of_bounds n start h0 (by omega)]
    simp only [Option.isSome_some, Bool.true_and]
    exact ih (start + 1) (by omega) (by omega)

theorem update_frame_ok (g : WatchGPSData) (h0 : 0 ≤ g.index)
    (h1 : g.index + g.gps_window ≤ (g.gps_data.length : ℤ))
    (h2 : 1 ≤ g.gps_window) :
    g.update_gps_data_frame = Except.ok g := by
  unfold WatchGPSData.update_gps_data_frame
  rw [if_pos]
  exact ⟨allAccessOk_of_bounds _ _ _ h0 (by omega), h2⟩

theorem setRangeLoop_ok {α : Type} (upd : α → α) :
    ∀ (cnt : ℕ) (dat : List α) (start : ℤ), 0 ≤ start →
      start + (cnt : ℤ) ≤ (dat.length : ℤ) →
      ∃ dat', setRangeLoop upd dat start cnt = .ok dat' ∧
        dat'.length = dat.length ∧
        ∀ i : ℕ, dat'.get? i =
          if start ≤ (i : ℤ) ∧ (i : ℤ) < start + (cnt : ℤ)
          then (dat.get? i).map upd else dat.get? i := by
  intro cnt
  induction cnt with
  | zero =>
    intro dat start h0 h1
    refine ⟨dat, rfl, rfl, fun i => ?_⟩
    rw [if_neg (by omega)]
  | succ k ih =>
    intro dat start h0 h1
    have hlt : start < (dat.length : ℤ) := by omega
    have hsn : start.toNat < dat.length := by omega
    cases hget : dat.get? start.toNat with
    | none => exact absurd (List.get?_eq_none.mp hget) (by omega)
    | some x =>
      have hstep : setRangeLoop upd dat start (k + 1) =
          setRangeLoop upd (dat.set start.toNat (upd x)) (start + 1) k := by
        simp only [setRangeLoop, pyIdx_of_bounds _ _ h0 hlt, hget]
      obtain ⟨dat', hrun, hlen, hchar⟩ :=
        ih (dat.set start.toNat (upd x)) (start + 1) (by omega)
          (by rw [List.length_set]; omega)
      refine ⟨dat', by rw [hstep, hrun], by rw [hlen, List.length_set], fun i => ?_⟩
      rw [hchar i]
      by_cases hi : i = start.toNat
      · subst hi
        rw [if_neg (by omega), if_pos (by omega),
          List.get?_set_eq_of_lt _ hsn, hget]
        rfl
      · rw [List.get?_set_ne _ _ (Ne.symm hi)]
        by_cases hc : start ≤ (i : ℤ) ∧ (i : ℤ) < start + ((k : ℤ) + 1)
        · rw [if_pos (by omega), if_pos (by omega)]
        · rw [if_neg (by omega), if_neg (by omega)]

theorem setGpsValid_absorb (b c : Bool) (r : SensorRow) :
    setGpsValid b (setGpsValid c r) = setGpsValid b r := rfl

theorem coveringValid_none (runs : List GPSData) (i : ℤ)
    (h : ∀ run ∈ runs, ¬(run.first_index ≤ i ∧ i ≤ run.last_index)) :
    coveringValid runs i = none := by
  induction runs with
  | nil => rfl
  | cons run rest ih =>
    simp only [coveringValid, ih (fun r hr => h r (List.mem_cons_of_mem _ hr)),
      if_neg (h run (List.mem_cons_self _ _))]

theorem coveringValid_unique (runs : List GPSData) :
    ∀ (i : ℤ) (p : ℕ) (run : GPSData), runs.get? p = some run →
      run.first_index ≤ i ∧ i ≤ run.last_index →
      (∀ (q : ℕ) (run₂ : GPSData), runs.get? q = some run₂ → q ≠ p →
        ¬(run₂.first_index ≤ i ∧ i ≤ run₂.last_index)) →
      coveringValid runs i = some run.is_valid := by
  induction runs with
  | nil => intro i p run hget; cases hget
  | cons head rest ih =>
    intro i p run hget hcov huniq
    cases p with
    | zero =>
      rw [List.get?_cons_zero] at hget
      injection hget with hget
      subst hget
      have hrest : coveringValid rest i = none := by
        apply coveringValid_none
        intro r hr
        obtain ⟨q, hq⟩ := List.get?_of_mem hr
        exact huniq (q + 1) r (by rw [List.get?_cons_succ]; exact hq)
          (Nat.succ_ne_zero q)
      simp only [coveringValid, hrest, if_pos hcov]
    | succ q =>
      rw [List.get?_cons_succ] at hget
      have hrest : coveringValid rest i = some run.is_valid := by
        apply ih i q run hget hcov
        intro q₂ run₂ hq₂ hne
        exact huniq (q₂ + 1) run₂ (by rw [List.get?_cons_succ]; exact hq₂)
          (by omega)
      simp only [coveringValid, hrest]

theorem mergeRuns_ok (runs : List GPSData) :
    ∀ dat : List SensorRow,
      (∀ run ∈ runs, 0 ≤ run.first_index ∧ run.first_index ≤ run.last_index ∧
        run.last_index < (dat.length : ℤ)) →
      ∃ dat', mergeRuns (some ()) runs dat = .ok (dat', runs.length) ∧
        dat'.length = dat.length ∧
        ∀ i : ℕ, dat'.get? i = applyCover (coveringValid runs (i : ℤ)) (dat.get? i) := by
  induction runs with
  | nil =>
    intro dat _
    exact ⟨dat, rfl, rfl, fun i => rfl⟩
  | cons run rest ih =>
    intro dat hb
    obtain ⟨hf0, hfl, hlt⟩ := hb run (List.mem_cons_self _ _)
    obtain ⟨dat₁, hloop, hlen₁, hchar₁⟩ :=
      setRangeLoop_ok (setGpsValid run.is_valid)
        (run.last_index + 1 - run.first_index).toNat dat run.first_index hf0
        (by omega)
    obtain ⟨dat₂, hrec, hlen₂, hchar₂⟩ := ih dat₁ (by
      intro r hr
      have := hb r (List.mem_cons_of_mem _ hr)
      omega)
    refine ⟨dat₂, ?_, by rw [hlen₂, hlen₁], fun i => ?_⟩
    · simp only [mergeRuns, hloop, hrec, List.length_cons]
    · rw [hchar₂ i]
      have hifchar : dat₁.get? i =
          if run.first_index ≤ (i : ℤ) ∧ (i : ℤ) ≤ run.last_index
          then (dat.get? i).map (setGpsValid run.is_valid) else dat.get? i := by
        rw [hchar₁ i]
        by_cases hc : run.first_index ≤ (i : ℤ) ∧ (i : ℤ) ≤ run.last_index
        · rw [if_pos (by omega), if_pos hc]
        · rw [if_neg (by omega), if_neg hc]
      rw [hifchar]
      cases hcv : coveringValid rest (i : ℤ) with
      | some b =>
        have hcons : coveringValid (run :: rest) (i : ℤ) = some b := by
          simp only [coveringValid, hcv]
        rw [hcons]
        by_cases hc : run.first_index ≤ (i : ℤ) ∧ (i : ℤ) ≤ run.last_index
        · rw [if_pos hc]
          show ((dat.get? i).map (setGpsValid run.is_valid)).map (setGpsValid b) =
            (dat.get? i).map (setGpsValid b)
          cases dat.get? i with
          | none => rfl
          | some r => rfl
        · rw [if_neg hc]
      | none =>
        have hcons : coveringValid (run :: rest) (i : ℤ) =
            (if run.first_index ≤ (i : ℤ) ∧ (i : ℤ) ≤ run.last_index
             then some run.is_valid else none) := by
          simp only [coveringValid, hcv]
        rw [hcons]
        by_cases hc : run.first_index ≤ (i : ℤ) ∧ (i : ℤ) ≤ run.last_index
        · rw [if_pos hc, if_pos hc]; rfl
        · rw [if_neg hc, if_neg hc]

theorem mark_window_invalid_ok (g : WatchGPSData) (hv : g.ValidWindow) :
    ∃ g₁, g.mark_window_invalid = .ok g₁ ∧
      g₁.has_data = g.has_data ∧ g₁.data_has_changed = true ∧
      g₁.index = g.index ∧ g₁.data_size = g.data_size ∧
      g₁.gps_window = g.gps_window ∧
      g₁.window_size_adj_rate = g.window_size_adj_rate ∧
      g₁.step_delta_rate = g.step_delta_rate ∧
      g₁.gps_data.length = g.gps_data.length ∧
      ∀ p : ℕ, g₁.gps_data.get? p =
        if g.index ≤ (p : ℤ) ∧ (p : ℤ) < g.index + g.gps_window
        then (g.gps_data.get? p).map (fun r => { r with is_valid := false })
        else g.gps_data.get? p := by
  obtain ⟨h0, h1, h2, h3⟩ := hv
  obtain ⟨dat, hloop, hlen, hchar⟩ :=
    setRangeLoop_ok (fun r => { r with is_valid := false })
      g.gps_window.toNat g.gps_data g.index h0 (by omega)
  refine ⟨{ g with gps_data := dat, data_has_changed := true }, ?_, rfl, rfl, rfl,
    rfl, rfl, rfl, rfl, hlen, fun p => ?_⟩
  · unfold WatchGPSData.mark_window_invalid
    rw [hloop]
    exact update_frame_ok _ h0 (by simp only; omega) h2
  · simp only
    rw [hchar p]
    by_cases hc : g.index ≤ (p : ℤ) ∧ (p : ℤ) < g.index + g.gps_window
    · rw [if_pos (by omega), if_pos hc]
    · rw [if_neg (by omega), if_neg hc]

theorem saveRows_with_callback (l : List SensorRow) :
    ∀ c : ℤ, saveRows (some ()) l c = .ok l := by
  induction l with
  | nil => intro c; rfl
  | cons row rest ih =>
    intro c
    unfold saveRows
    rw [if_neg (by simp), ih (c + 1)]

theorem load_cbCalls_none (sch : LoadSchema) (rows : List SensorRow) :
    ∀ st : LoadState, (rows.foldl (loadRow none sch) st).cbCalls = st.cbCalls := by
  induction rows with
  | nil => intro st; rfl
  | cons row rest ih =>
    intro st
    rw [List.foldl_cons, ih]
    unfold loadRow
    simp only [Option.isSome_none, Bool.false_eq_true, and_false, if_false]
    split
    · split
      · rfl
      · split <;> rfl
    · rfl

theorem pyTrunc_of_nonneg (q : ℚ) (h : 0 ≤ q) : pyTrunc q = ⌊q⌋ := by
  unfold pyTrunc
  rw [if_pos h]

theorem pyIdx_zero (i : ℤ) : pyIdx 0 i = none := by
  unfold pyIdx
  rw [if_neg (by omega), if_neg (by omega)]

theorem pyTrunc_mul_bounds (f : ℚ) (a : ℤ) (hf0 : 0 ≤ f) (hf1 : f ≤ 1)
    (ha : 0 ≤ a) : 0 ≤ pyTrunc (f * (a : ℚ)) ∧ pyTrunc (f * (a : ℚ)) ≤ a := by
  have ha' : (0 : ℚ) ≤ (a : ℚ) := by exact_mod_cast ha
  have hq0 : 0 ≤ f * (a : ℚ) := mul_nonneg hf0 ha'
  have hq1 : f * (a : ℚ) ≤ (a : ℚ) := by
    calc f * (a : ℚ) ≤ 1 * (a : ℚ) := mul_le_mul_of_nonneg_right hf1 ha'
      _ = (a : ℚ) := one_mul _
  rw [pyTrunc_of_nonneg _ hq0]
  constructor
  · exact Int.floor_nonneg.mpr hq0
  · have hfl := Int.floor_mono hq1
    rwa [Int.floor_intCast] at hfl

theorem gps_step_forward_spec (g : WatchGPSData) (hv : g.ValidWindow)
    (hr : 0 ≤ g.step_delta_rate) :
    g.step_forward =
      (if g.index + g.gps_window + g.step_delta_rate < g.data_size
       then .ok ({ g with index := g.index + g.step_delta_rate }, true)
       else .ok (g, false)) := by
  obtain ⟨h0, h1, h2, h3⟩ := hv
  unfold WatchGPSData.step_forward
  split_ifs with hc
  · rw [update_frame_ok _ (by dsimp only; omega) (by dsimp only; omega)
      (by dsimp only; omega)]
    rfl
  · rfl

theorem gps_step_backward_spec (g : WatchGPSData) (hv : g.ValidWindow)
    (hr : 0 ≤ g.step_delta_rate) :
    g.step_backward =
      (if g.index - g.step_delta_rate ≥ 0
       then .ok ({ g with index := g.index - g.step_delta_rate }, true)
       else .ok (g, false)) := by
  obtain ⟨h0, h1, h2, h3⟩ := hv
  unfold WatchGPSData.step_backward
  split_ifs with hc
  · rw [update_frame_ok _ (by dsimp only; omega) (by dsimp only; omega)
      (by dsimp only; omega)]
    rfl
  · rfl

theorem gps_increase_spec (g : WatchGPSData) (hv : g.ValidWindow)
    (hr : 0 ≤ g.window_size_adj_rate) :
    g.increase_window_size =
      (if g.index + g.gps_window + g.window_size_adj_rate < g.data_size
       then .ok ({ g with gps_window := g.gps_window + g.window_size_adj_rate }, true)
       else .ok (g, false)) := by
  obtain ⟨h0, h1, h2, h3⟩ := hv
  unfold WatchGPSData.increase_window_size
  split_ifs with hc
  · rw [update_frame_ok _ (by dsimp only; omega) (by dsimp only; omega)
      (by dsimp only; omega)]
    rfl
  · rfl

theorem gps_decrease_spec (g : WatchGPSData) (hv : g.ValidWindow)
    (hr : 0 ≤ g.window_size_adj_rate) :
    g.decrease_window_size =
      (if g.gps_window - g.window_size_adj_rate ≥ 1
       then .ok ({ g with gps_window := g.gps_window - g.window_size_adj_rate }, true)
       else .ok (g, false)) := by
  obtain ⟨h0, h1, h2, h3⟩ := hv
  unfold WatchGPSData.decrease_window_size
  split_ifs with hc
  · rw [update_frame_ok _ (by dsimp only; omega) (by dsimp only; omega)
      (by dsimp only; omega)]
    rfl
  · rfl

theorem gps_goto_spec (g : WatchGPSData) (hv : g.ValidWindow) (f : ℚ) :
    g.goto_index f =
      (if 0 ≤ f ∧ f ≤ 1
       then .ok { g with
         index := pyTrunc (f * ((g.data_size : ℚ) - (g.gps_window : ℚ))) }
       else .ok g) := by
  obtain ⟨h0, h1, h2, h3⟩ := hv
  unfold WatchGPSData.goto_index
  split_ifs with hc
  · have hcast : (g.data_size : ℚ) - (g.gps_window : ℚ) =
        ((g.data_size - g.gps_window : ℤ) : ℚ) := by push_cast; ring
    have hb := pyTrunc_mul_bounds f (g.data_size - g.gps_window) hc.1 hc.2
      (by omega)
    rw [hcast]
    exact update_frame_ok _ (by dsimp only; omega) (by dsimp only; omega)
      (by dsimp only; omega)
  · rfl

theorem pairwise_get?_rel {α : Type} {R : α → α → Prop} {l : List α}
    (h : l.Pairwise R) {p q : ℕ} {a b : α} (hpq : p < q)
    (ha : l.get? p = some a) (hb : l.get? q = some b) : R a b := by
  have hq : q < l.length := by
    by_contra hq
    rw [List.get?_eq_none.mpr (by omega)] at hb
    cases hb
  have hp : p < l.length := by omega
  rw [List.get?_eq_get hp] at ha
  rw [List.get?_eq_get hq] at hb
  injection ha with ha
  injection hb with hb
  subst ha
  subst hb
  exact List.pairwise_iff_get.mp h ⟨p, hp⟩ ⟨q, hq⟩ hpq

/-- The dirty branch of merge_data_changes, for separated (pairwise
disjoint, ordered) runs: it completes, reporting once per run, moves the
dirty flags, rewrites is_gps_valid with the flag of the covering run for
every covered row, and leaves uncovered rows untouched. -/
theorem merge_marked_spec (s : FullSensorData) (g : WatchGPSData)
    (hdirty : g.data_has_changed = true)
    (hb : ∀ run ∈ g.gps_data, 0 ≤ run.first_index ∧
      run.first_index ≤ run.last_index ∧
      run.last_index < (s.sensor_data.length : ℤ))
    (hsep : g.gps_data.Pairwise (fun a b => a.last_index < b.first_index)) :
    ∃ s₁ g₂, s.merge_data_changes (some ()) g = .ok (s₁, g₂, g.gps_data.length) ∧
      s₁.data_has_changed = true ∧ g₂.data_has_changed = false ∧
      (∀ (p : ℕ) (run : GPSData) (i : ℕ), g.gps_data.get? p = some run →
        run.first_index ≤ (i : ℤ) → (i : ℤ) ≤ run.last_index →
        (s₁.sensor_data.get? i).map SensorRow.is_gps_valid =
          some (gpsValidDict run.is_valid)) ∧
      (∀ i : ℕ,
        (∀ run ∈ g.gps_data, ¬(run.first_index ≤ (i : ℤ) ∧ (i : ℤ) ≤ run.last_index)) →
        s₁.sensor_data.get? i = s.sensor_data.get? i) := by
  obtain ⟨dat', hrun, hlen, hchar⟩ := mergeRuns_ok g.gps_data s.sensor_data hb
  refine ⟨{ s with data_has_changed := true, sensor_data := dat' },
    { g with data_has_changed := false }, ?_, rfl, rfl, ?_, ?_⟩
  · unfold FullSensorData.merge_data_changes
    rw [if_neg (by rw [hdirty]; simp)]
    dsimp only
    rw [hrun]
  · intro p run i hp hf hl
    have hcov : coveringValid g.gps_data (i : ℤ) = some run.is_valid := by
      apply coveringValid_unique g.gps_data (i : ℤ) p run hp ⟨hf, hl⟩
      intro q run₂ hq hne
      rcases Nat.lt_or_ge q p with hlt | hge
      · have hrel : run₂.last_index < run.first_index :=
          pairwise_get?_rel hsep hlt hq hp
        intro hcov2
        omega
      · have hgt : p < q := by omega
        have hrel : run.last_index < run₂.first_index :=
          pairwise_get?_rel hsep hgt hp hq
        intro hcov2
        omega
    show (dat'.get? i).map SensorRow.is_gps_valid = _
    rw [hchar i, hcov]
    have hi : i < s.sensor_data.length := by
      have := hb run (List.get?_mem hp)
      omega
    rw [List.get?_eq_get hi]
    rfl
  · intro i hnone
    show dat'.get? i = _
    rw [hchar i, coveringValid_none _ _ hnone]
    rfl

/-! ### Claim theorems -/

/-- C1: for both cursors, starting from any valid window state
(0 ≤ start_index, start_index + length ≤ sequence_size, length ≥ 1, with the
nonnegative step rates the configuration layer supplies), each of
step_forward, step_backward, grow_window, shrink_window and goto_fraction
preserves the invariant, and an operation that reports failure has left the
state unchanged (goto_fraction, which reports nothing, is a no-op outside
[0, 1]). -/
theorem C1_cursor_invariant :
    (∀ s : FullSensorData, s.ValidWindow →
      0 ≤ s.window_size_adj_rate → 0 ≤ s.step_delta_rate →
      (s.step_forward.1.ValidWindow ∧ (s.step_forward.2 = false → s.step_forward.1 = s)) ∧
      (s.step_backward.1.ValidWindow ∧ (s.step_backward.2 = false → s.step_backward.1 = s)) ∧
      (s.increase_window_size.1.ValidWindow ∧
        (s.increase_window_size.2 = false → s.increase_window_size.1 = s)) ∧
      (s.decrease_window_size.1.ValidWindow ∧
        (s.decrease_window_size.2 = false → s.decrease_window_size.1 = s)) ∧
      (∀ f : ℚ, (s.goto_index f).ValidWindow ∧
        (¬(0 ≤ f ∧ f ≤ 1) → s.goto_index f = s))) ∧
    (∀ g : WatchGPSData, g.ValidWindow →
      0 ≤ g.window_size_adj_rate → 0 ≤ g.step_delta_rate →
      (∃ g₁ b, g.step_forward = .ok (g₁, b) ∧ g₁.ValidWindow ∧ (b = false → g₁ = g)) ∧
      (∃ g₁ b, g.step_backward = .ok (g₁, b) ∧ g₁.ValidWindow ∧ (b = false → g₁ = g)) ∧
      (∃ g₁ b, g.increase_window_size = .ok (g₁, b) ∧ g₁.ValidWindow ∧
        (b = false → g₁ = g)) ∧
      (∃ g₁ b, g.decrease_window_size = .ok (g₁, b) ∧ g₁.ValidWindow ∧
        (b = false → g₁ = g)) ∧
      (∀ f : ℚ, ∃ g₁, g.goto_index f = .ok g₁ ∧ g₁.ValidWindow ∧
        (¬(0 ≤ f ∧ f ≤ 1) → g₁ = g))) := by
  constructor
  · intro s hs hadj hstep
    obtain ⟨h0, h1, h2, h3⟩ := hs
    refine ⟨?_, ?_, ?_, ?_, ?_⟩
    · unfold FullSensorData.step_forward
      split_ifs with hc
      · exact ⟨by dsimp only [FullSensorData.ValidWindow]; omega, by simp⟩
      · exact ⟨⟨h0, h1, h2, h3⟩, fun _ => rfl⟩
    · unfold FullSensorData.step_backward
      split_ifs with hc
      · exact ⟨by dsimp only [FullSensorData.ValidWindow]; omega, by simp⟩
      · exact ⟨⟨h0, h1, h2, h3⟩, fun _ => rfl⟩
    · unfold FullSensorData.increase_window_size
      split_ifs with hc
      · exact ⟨by dsimp only [FullSensorData.ValidWindow]; omega, by simp⟩
      · exact ⟨⟨h0, h1, h2, h3⟩, fun _ => rfl⟩
    · unfold FullSensorData.decrease_window_size
      split_ifs with hc
      · exact ⟨by dsimp only [FullSensorData.ValidWindow]; omega, by simp⟩
      · exact ⟨⟨h0, h1, h2, h3⟩, fun _ => rfl⟩
    · intro f
      unfold FullSensorData.goto_index
      split_ifs with hc
      · refine ⟨?_, fun hn => absurd hc hn⟩
        have hcast : (s.data_size : ℚ) - (s.sensor_window : ℚ) =
            ((s.data_size - s.sensor_window : ℤ) : ℚ) := by push_cast; ring
        have hb := pyTrunc_mul_bounds f (s.data_size - s.sensor_window)
          hc.1 hc.2 (by omega)
        dsimp only [FullSensorData.ValidWindow]
        rw [hcast]
        omega
      · exact ⟨⟨h0, h1, h2, h3⟩, fun _ => rfl⟩
  · intro g hv hadj hstep
    have hv' := hv
    obtain ⟨h0, h1, h2, h3⟩ := hv'
    refine ⟨?_, ?_, ?_, ?_, ?_⟩
    · rw [gps_step_forward_spec g hv hstep]
      split_ifs with hc
      · exact ⟨_, true, rfl, by dsimp only [WatchGPSData.ValidWindow]; omega, by simp⟩
      · exact ⟨g, false, rfl, hv, fun _ => rfl⟩
    · rw [gps_step_backward_spec g hv hstep]
      split_ifs with hc
      · exact ⟨_, true, rfl, by dsimp only [WatchGPSData.ValidWindow]; omega, by simp⟩
      · exact ⟨g, false, rfl, hv, fun _ => rfl⟩
    · rw [gps_increase_spec g hv hadj]
      split_ifs with hc
      · exact ⟨_, true, rfl, by dsimp only [WatchGPSData.ValidWindow]; omega, by simp⟩
      · exact ⟨g, false, rfl, hv, fun _ => rfl⟩
    · rw [gps_decrease_spec g hv hadj]
      split_ifs with hc
      · exact ⟨_, true, rfl, by dsimp only [WatchGPSData.ValidWindow]; omega, by simp⟩
      · exact ⟨g, false, rfl, hv, fun _ => rfl⟩
    · intro f
      rw [gps_goto_spec g hv f]
      split_ifs with hc
      · refine ⟨_, rfl, ?_, fun hn => absurd hc hn⟩
        have hcast : (g.data_size : ℚ) - (g.gps_window : ℚ) =
            ((g.data_size - g.gps_window : ℤ) : ℚ) := by push_cast; ring
        have hb := pyTrunc_mul_bounds f (g.data_size - g.gps_window)
          hc.1 hc.2 (by omega)
        dsimp only [WatchGPSData.ValidWindow]
        rw [hcast]
        omega
      · exact ⟨g, rfl, hv, fun _ => rfl⟩

/-- Witness for C1 at concrete five-element cursors with unit step rates. -/
theorem C1_cursor_invariant_witness :
    (sFive.ValidWindow ∧ 0 ≤ sFive.window_size_adj_rate ∧ 0 ≤ sFive.step_delta_rate ∧
      sFive.step_forward.1.ValidWindow) ∧
    (gFive.ValidWindow ∧ 0 ≤ gFive.window_size_adj_rate ∧ 0 ≤ gFive.step_delta_rate ∧
      ∃ g₁ b, gFive.step_forward = .ok (g₁, b) ∧ g₁.ValidWindow ∧ (b = false → g₁ = gFive)) :=
  ⟨⟨by decide, by decide, by decide,
    ((C1_cursor_invariant.1 sFive (by decide) (by decide) (by decide)).1).1⟩,
   ⟨by decide, by decide, by decide,
    (C1_cursor_invariant.2 gFive (by decide) (by decide) (by decide)).1⟩⟩

/-- C7: the sensor step_forward succeeds exactly when
start_index + length + navigate_step ≤ size, while the GPS step_forward
succeeds exactly when start_index + length + navigate_step < size; at the
boundary where the sum equals size, the sensor step succeeds and the GPS
step fails. -/
theorem C7_step_forward_asymmetry :
    (∀ s : FullSensorData,
      (s.step_forward.2 = true ↔
        s.index + s.sensor_window + s.step_delta_rate ≤ s.data_size)) ∧
    (∀ g : WatchGPSData, g.ValidWindow → 0 ≤ g.step_delta_rate →
      ∃ g₁ b, g.step_forward = .ok (g₁, b) ∧
        (b = true ↔ g.index + g.gps_window + g.step_delta_rate < g.data_size)) ∧
    (∀ (s : FullSensorData) (g : WatchGPSData),
      g.ValidWindow → 0 ≤ g.step_delta_rate →
      s.index + s.sensor_window + s.step_delta_rate = s.data_size →
      g.index + g.gps_window + g.step_delta_rate = g.data_size →
      s.step_forward.2 = true ∧ g.step_forward = .ok (g, false)) := by
  refine ⟨?_, ?_, ?_⟩
  · intro s
    unfold FullSensorData.step_forward
    split_ifs with hc
    · simpa using hc
    · simpa using hc
  · intro g hv hr
    rw [gps_step_forward_spec g hv hr]
    split_ifs with hc
    · exact ⟨_, true, rfl, by simpa using hc⟩
    · exact ⟨g, false, rfl, by simpa using hc⟩
  · intro s g hv hr hs hg
    constructor
    · unfold FullSensorData.step_forward
      rw [if_pos (by omega)]
    · rw [gps_step_forward_spec g hv hr, if_neg (by omega)]

/-- Witness for C7 at the exact boundary: a sensor cursor and a GPS cursor
with start_index 0, length 2, step 1 over a sequence of size 3. -/
theorem C7_step_forward_asymmetry_witness :
    (sBoundary.index + sBoundary.sensor_window + sBoundary.step_delta_rate =
      sBoundary.data_size) ∧
    (gBoundary.ValidWindow ∧ 0 ≤ gBoundary.step_delta_rate ∧
      gBoundary.index + gBoundary.gps_window + gBoundary.step_delta_rate =
        gBoundary.data_size) ∧
    (sBoundary.step_forward.2 = true ∧ gBoundary.step_forward = .ok (gBoundary, false)) :=
  ⟨by decide, ⟨by decide, by decide, by decide⟩,
    C7_step_forward_asymmetry.2.2 sBoundary gBoundary (by decide) (by decide)
      (by decide) (by decide)⟩

/-- C9: on either cursor, a successful step_forward followed by a successful
step_backward with the same navigate_step restores the state exactly to
what it was before the step_forward. -/
theorem C9_step_roundtrip :
    (∀ s : FullSensorData, 0 ≤ s.index → s.step_forward.2 = true →
      s.step_forward.1.step_backward.2 = true ∧ s.step_forward.1.step_backward.1 = s) ∧
    (∀ g g₁ : WatchGPSData, g.ValidWindow → 0 ≤ g.step_delta_rate →
      g.step_forward = .ok (g₁, true) → g₁.step_backward = .ok (g, true)) := by
  constructor
  · intro s h0 hfwd
    obtain ⟨shd, sdc, sidx, sds, sdat, sw, sadj, sst, sfl⟩ := s
    dsimp only at h0
    unfold FullSensorData.step_forward at hfwd ⊢
    dsimp only at hfwd ⊢
    split_ifs at hfwd ⊢ with hc
    · unfold FullSensorData.step_backward
      dsimp only
      split_ifs with hd
      · refine ⟨rfl, ?_⟩
        dsimp only
        congr 1
        omega
      · exact absurd (by omega) hd
  · intro g g₁ hv hr hfwd
    obtain ⟨ghd, gdc, gidx, gds, gdat, gw, gadj, gst⟩ := g
    obtain ⟨h0, h1, h2, h3⟩ := hv
    dsimp only at h0 h1 h2 h3 hr
    rw [gps_step_forward_spec _ ⟨h0, h1, h2, h3⟩ hr] at hfwd
    dsimp only at hfwd
    split_ifs at hfwd with hc
    · injection hfwd with hfwd
      injection hfwd with hfwd hb
      subst hfwd
      have hv₁ : WatchGPSData.ValidWindow ⟨ghd, gdc, gidx + gst, gds, gdat, gw, gadj, gst⟩ :=
        ⟨by dsimp only; omega, by dsimp only; omega, h2, h3⟩
      rw [gps_step_backward_spec _ hv₁ hr]
      dsimp only
      split_ifs with hd
      · have harith : gidx + gst - gst = gidx := by omega
        rw [harith]
      · exact absurd (by omega) hd
    · injection hfwd with hfwd
      injection hfwd with hfwd hb
      cases hb

/-- Witness for C9 on the concrete five-element cursors. -/
theorem C9_step_roundtrip_witness :
    (0 ≤ sFive.index ∧ sFive.step_forward.2 = true ∧
      sFive.step_forward.1.step_backward.1 = sFive) ∧
    (gFive.ValidWindow ∧ 0 ≤ gFive.step_delta_rate ∧
      gFive.step_forward = .ok (gFiveStepped, true) ∧
      gFiveStepped.step_backward = .ok (gFive, true)) :=
  ⟨⟨by decide, by decide,
    (C9_step_roundtrip.1 sFive (by decide) (by decide)).2⟩,
   ⟨by decide, by decide, by decide,
    C9_step_roundtrip.2 gFive gFiveStepped (by decide) (by decide) (by decide)⟩⟩

/-- C8: save with a clean store is a no-op and the writer collaborator is
never touched; with a dirty store (and the progress callback that normal
operation supplies) every record is handed to the writer in the stored field
order, and the dirty flag is cleared afterwards. -/
theorem C8_save_dirty_gating :
    (∀ (s : FullSensorData) (cb dcb : Option Unit), s.data_has_changed = false →
      s.save_data cb dcb = .ok (s, ⟨none, []⟩, dcb.isSome)) ∧
    (∀ (s : FullSensorData) (dcb : Option Unit), s.data_has_changed = true →
      s.save_data (some ()) dcb =
        .ok ({ s with data_has_changed := false },
          ⟨some s.fields, s.sensor_data⟩, dcb.isSome)) := by
  constructor
  · intro s cb dcb h
    unfold FullSensorData.save_data
    rw [if_pos h]
  · intro s dcb h
    unfold FullSensorData.save_data
    rw [if_neg (by rw [h]; simp), saveRows_with_callback s.sensor_data 0]

/-- Witness for C8: a clean store writes nothing; the concrete dirty one-row
store is fully serialized and comes back clean. -/
theorem C8_save_dirty_gating_witness :
    (FullSensorData.init.data_has_changed = false ∧
      FullSensorData.init.save_data none none =
        .ok (FullSensorData.init, ⟨none, []⟩, false)) ∧
    (sDirtyOne.data_has_changed = true ∧
      sDirtyOne.save_data (some ()) (some ()) =
        .ok ({ sDirtyOne with data_has_changed := false },
          ⟨some sDirtyOne.fields, sDirtyOne.sensor_data⟩, true)) :=
  ⟨⟨rfl, C8_save_dirty_gating.1 FullSensorData.init none none rfl⟩,
   ⟨rfl, C8_save_dirty_gating.2 sDirtyOne (some ()) rfl⟩⟩

/-- C10 counterexample: the claim asserts that save invokes its progress
callback only when one is supplied, yet on a dirty store holding one record
save without a progress callback raises (the unguarded update_callback call
at the first row, after the headers were already written) instead of
completing. -/
theorem C10_counterexample :
    sDirtyOne.data_has_changed = true ∧
    sDirtyOne.save_data none none = .error (sDirtyOne, ⟨some sDirtyOne.fields, []⟩) :=
  ⟨rfl, rfl⟩

/-- C10 amended: merge invokes its progress callback once per GPS run with no
guard, so on a dirty nonempty index merge without a callback raises with the
sensor dirty flag already set; load guards its callback and never invokes it
when absent; save guards only its done callback, and its unguarded progress
callback makes save raise when the callback is absent and the store is dirty
and nonempty. -/
theorem C10_amended_callback_guards :
    (∀ (s : FullSensorData) (g : WatchGPSData), g.data_has_changed = true →
      g.gps_data ≠ [] →
      s.merge_data_changes none g = .error ({ s with data_has_changed := true }, g)) ∧
    (∀ (s : FullSensorData) (g : WatchGPSData), g.data_has_changed = true →
      (∀ run ∈ g.gps_data, 0 ≤ run.first_index ∧ run.first_index ≤ run.last_index ∧
        run.last_index < (s.sensor_data.length : ℤ)) →
      ∃ s₁ g₁, s.merge_data_changes (some ()) g = .ok (s₁, g₁, g.gps_data.length)) ∧
    (∀ (sch : LoadSchema) (bf : List String) (rows : List SensorRow)
      (s : FullSensorData) (g : WatchGPSData),
      (FullSensorData.load_data none sch bf rows s g).2.2 = 0) ∧
    (∀ (s : FullSensorData) (dcb : Option Unit) (row : SensorRow)
      (rest : List SensorRow),
      s.data_has_changed = true → s.sensor_data = row :: rest →
      s.save_data none dcb = .error (s, ⟨some s.fields, []⟩)) := by
  refine ⟨?_, ?_, ?_, ?_⟩
  · intro s g hdirty hne
    unfold FullSensorData.merge_data_changes
    rw [if_neg (by rw [hdirty]; simp)]
    dsimp only
    cases hgd : g.gps_data with
    | nil => exact absurd hgd hne
    | cons r rest => simp only [mergeRuns]
  · intro s g hdirty hb
    unfold FullSensorData.merge_data_changes
    rw [if_neg (by rw [hdirty]; simp)]
    dsimp only
    obtain ⟨dat', hrun, _, _⟩ := mergeRuns_ok g.gps_data s.sensor_data hb
    rw [hrun]
    exact ⟨_, _, rfl⟩
  · intro sch bf rows s g
    unfold FullSensorData.load_data
    dsimp only
    split_ifs <;> exact load_cbCalls_none sch rows LoadState.start
  · intro s dcb row rest hdirty hrows
    unfold FullSensorData.save_data
    rw [if_neg (by rw [hdirty]; simp), hrows]
    simp only [saveRows]
    have hcond : (0 : ℤ) % 500 = 0 ∧ True := ⟨by norm_num, trivial⟩
    rw [if_pos hcond]

/-- Witness for C10 amended at concrete inputs: merge on a dirty five-run
index without a callback raises with the sensor flag set; merge with a
callback reports once per run; load without a callback reports zero times;
save on a dirty one-row store without a callback raises. -/
theorem C10_amended_callback_guards_witness :
    (gDirty.data_has_changed = true ∧ gDirty.gps_data ≠ [] ∧
      FullSensorData.init.merge_data_changes none gDirty =
        .error ({ FullSensorData.init with data_has_changed := true }, gDirty)) ∧
    (∃ s₁ g₁, sDirtyOne.merge_data_changes (some ()) gDirty =
      .ok (s₁, g₁, gDirty.gps_data.length)) ∧
    ((FullSensorData.load_data none bareSchema ["stamp"] fileRows3
      FullSensorData.init WatchGPSData.init).2.2 = 0) ∧
    (sDirtyOne.save_data none none = .error (sDirtyOne, ⟨some sDirtyOne.fields, []⟩)) :=
  ⟨⟨rfl, by decide,
    C10_amended_callback_guards.1 FullSensorData.init gDirty rfl (by decide)⟩,
   C10_amended_callback_guards.2.1 sDirtyOne gDirty rfl (by decide),
   C10_amended_callback_guards.2.2.1 bareSchema ["stamp"] fileRows3
     FullSensorData.init WatchGPSData.init,
   C10_amended_callback_guards.2.2.2 sDirtyOne none default [] rfl rfl⟩

/-- C4 counterexample: on the freshly initialised empty GPS index (window
still 10) both mark operations raise an index error at the first loop access
instead of being no-ops, refuting the claim that marking an empty index
never raises. -/
theorem C4_counterexample :
    WatchGPSData.init.gps_data = [] ∧
    WatchGPSData.init.mark_window_invalid = .error WatchGPSData.init ∧
    WatchGPSData.init.mark_window_valid = .error WatchGPSData.init :=
  ⟨rfl, rfl, rfl⟩

/-- C4 amended: on an empty GPS index whose window length is at least one
(as it always is after initialisation), mark_window raises an index error;
the raise happens before any state change, so the index and the dirty flags
are exactly as before, but the call is a raise, not a silent no-op. -/
theorem C4_amended_mark_empty_raises (g : WatchGPSData) (h : g.gps_data = [])
    (hw : 1 ≤ g.gps_window) :
    g.mark_window_invalid = .error g ∧ g.mark_window_valid = .error g := by
  obtain ⟨k, hk⟩ : ∃ k, g.gps_window.toNat = k + 1 :=
    ⟨g.gps_window.toNat - 1, by omega⟩
  constructor
  · unfold WatchGPSData.mark_window_invalid
    rw [h, hk]
    simp only [setRangeLoop, List.length_nil, pyIdx_zero]
    rw [← h]
  · unfold WatchGPSData.mark_window_valid
    rw [h, hk]
    simp only [setRangeLoop, List.length_nil, pyIdx_zero]
    rw [← h]

/-- Witness for C4 amended at the freshly initialised index. -/
theorem C4_amended_mark_empty_raises_witness :
    WatchGPSData.init.gps_data = [] ∧ 1 ≤ WatchGPSData.init.gps_window ∧
    WatchGPSData.init.mark_window_invalid = .error WatchGPSData.init ∧
    WatchGPSData.init.mark_window_valid = .error WatchGPSData.init :=
  ⟨rfl, by decide,
    (C4_amended_mark_empty_raises WatchGPSData.init rfl (by decide)).1,
    (C4_amended_mark_empty_raises WatchGPSData.init rfl (by decide)).2⟩

/-- C5 counterexample: on the twenty-run GPS cursor with window ten, the
claimed GPS formula floor(f * size) gives 20 at f = 1, but goto_index
actually sets start_index to int(1 * (20 - 10)) = 10 (gps.py line 157 uses
data_size - gps_window, exactly like the sensor cursor). -/
theorem C5_counterexample :
    gTwenty.goto_index 1 = .ok { gTwenty with index := 10 } ∧
    pyTrunc ((1 : ℚ) * (gTwenty.data_size : ℚ)) = 20 ∧ (10 : ℤ) ≠ 20 := by
  have hds : (gTwenty.data_size : ℚ) = ((20 : ℤ) : ℚ) := rfl
  have hw : (gTwenty.gps_window : ℚ) = ((10 : ℤ) : ℚ) := rfl
  refine ⟨?_, ?_, by decide⟩
  · rw [gps_goto_spec gTwenty (by decide) 1, if_pos (by norm_num)]
    have hval : pyTrunc ((1 : ℚ) * ((gTwenty.data_size : ℚ) - (gTwenty.gps_window : ℚ))) =
        (10 : ℤ) := by
      rw [hds, hw, one_mul]
      have hsub : ((20 : ℤ) : ℚ) - ((10 : ℤ) : ℚ) = ((10 : ℤ) : ℚ) := by norm_num
      rw [hsub, pyTrunc_of_nonneg _ (by norm_num), Int.floor_intCast]
    rw [hval]
  · rw [hds, one_mul, pyTrunc_of_nonneg _ (by norm_num), Int.floor_intCast]

/-- C5 amended: for f in [0, 1] both cursors set
start_index = floor(f * (size - length)); outside [0, 1] both calls are
no-ops. -/
theorem C5_amended_goto_formula :
    (∀ (s : FullSensorData) (f : ℚ), s.ValidWindow →
      ((0 ≤ f ∧ f ≤ 1) →
        s.goto_index f =
          { s with index := ⌊f * ((s.data_size : ℚ) - (s.sensor_window : ℚ))⌋ }) ∧
      (¬(0 ≤ f ∧ f ≤ 1) → s.goto_index f = s)) ∧
    (∀ (g : WatchGPSData) (f : ℚ), g.ValidWindow →
      ((0 ≤ f ∧ f ≤ 1) →
        g.goto_index f =
          .ok { g with index := ⌊f * ((g.data_size : ℚ) - (g.gps_window : ℚ))⌋ }) ∧
      (¬(0 ≤ f ∧ f ≤ 1) → g.goto_index f = .ok g)) := by
  constructor
  · intro s f hv
    obtain ⟨h0, h1, h2, h3⟩ := hv
    constructor
    · intro hc
      unfold FullSensorData.goto_index
      rw [if_pos hc]
      have hle : (s.sensor_window : ℚ) ≤ (s.data_size : ℚ) := by
        exact_mod_cast (by omega : s.sensor_window ≤ s.data_size)
      rw [pyTrunc_of_nonneg _ (mul_nonneg hc.1 (by linarith))]
    · intro hc
      unfold FullSensorData.goto_index
      rw [if_neg hc]
  · intro g f hv
    have hv' := hv
    obtain ⟨h0, h1, h2, h3⟩ := hv'
    constructor
    · intro hc
      rw [gps_goto_spec g hv f, if_pos hc]
      have hle : (g.gps_window : ℚ) ≤ (g.data_size : ℚ) := by
        exact_mod_cast (by omega : g.gps_window ≤ g.data_size)
      rw [pyTrunc_of_nonneg _ (mul_nonneg hc.1 (by linarith))]
    · intro hc
      rw [gps_goto_spec g hv f, if_neg hc]

/-- Witness for C5 amended at f = 1/2 on the concrete cursors. -/
theorem C5_amended_goto_formula_witness :
    sFive.ValidWindow ∧ gTwenty.ValidWindow ∧
    ((0 : ℚ) ≤ 1/2 ∧ (1/2 : ℚ) ≤ 1) ∧
    sFive.goto_index (1/2) =
      { sFive with index := ⌊(1/2 : ℚ) * ((sFive.data_size : ℚ) - (sFive.sensor_window : ℚ))⌋ } ∧
    gTwenty.goto_index (1/2) =
      .ok { gTwenty with index := ⌊(1/2 : ℚ) * ((gTwenty.data_size : ℚ) - (gTwenty.gps_window : ℚ))⌋ } :=
  ⟨by decide, by decide, by norm_num,
    (C5_amended_goto_formula.1 sFive (1/2) (by decide)).1 (by norm_num),
    (C5_amended_goto_formula.2 gTwenty (1/2) (by decide)).1 (by norm_num)⟩

/-- C6 counterexample: on a two-record store with the window covering both
records, add_note writes the note into record 0 as well, although record 0
is not the last record of the window — refuting the claim that only the
last record changes. -/
theorem C6_counterexample :
    isErr (sTwoRows.add_note "x") = false ∧
    (sTwoRows.sensor_data.getD 0 default).notes = none ∧
    ((exVal (sTwoRows.add_note "x")).sensor_data.getD 0 default).notes = some "x" :=
  ⟨by decide, by decide, by decide⟩

/-- C6 amended: add_note(text) sets the notes field of every record of the
current window (not only the last one), leaves records outside the window
unchanged, stores empty text as null, and sets the dirty flag. -/
theorem C6_amended_add_note_whole_window (s : FullSensorData) (msg : String)
    (hv : s.ValidWindow) :
    ∃ s₁, s.add_note msg = .ok s₁ ∧ s₁.data_has_changed = true ∧
      s₁.index = s.index ∧ s₁.data_size = s.data_size ∧
      s₁.sensor_window = s.sensor_window ∧ s₁.fields = s.fields ∧
      s₁.sensor_data.length = s.sensor_data.length ∧
      (∀ i : ℕ, (s.index ≤ (i : ℤ) ∧ (i : ℤ) < s.index + s.sensor_window) →
        s₁.sensor_data.get? i = (s.sensor_data.get? i).map
          (fun r => { r with notes := if msg = "" then none else some msg })) ∧
      (∀ i : ℕ, ¬(s.index ≤ (i : ℤ) ∧ (i : ℤ) < s.index + s.sensor_window) →
        s₁.sensor_data.get? i = s.sensor_data.get? i) := by
  obtain ⟨h0, h1, h2, h3⟩ := hv
  obtain ⟨dat, hloop, hlen, hchar⟩ :=
    setRangeLoop_ok (fun r => { r with notes := if msg = "" then none else some msg })
      s.sensor_window.toNat s.sensor_data s.index h0 (by omega)
  refine ⟨{ s with data_has_changed := true, sensor_data := dat }, ?_, rfl, rfl,
    rfl, rfl, rfl, hlen, ?_, ?_⟩
  · unfold FullSensorData.add_note
    dsimp only
    rw [hloop]
  · intro i hi
    show dat.get? i = _
    rw [hchar i, if_pos (by omega)]
  · intro i hi
    show dat.get? i = _
    rw [hchar i, if_neg (by omega)]

/-- Witness for C6 amended on the concrete two-record store. -/
theorem C6_amended_add_note_whole_window_witness :
    sTwoRows.ValidWindow ∧
    ∃ s₁, sTwoRows.add_note "x" = .ok s₁ ∧ s₁.data_has_changed = true ∧
      s₁.index = sTwoRows.index ∧ s₁.data_size = sTwoRows.data_size ∧
      s₁.sensor_window = sTwoRows.sensor_window ∧ s₁.fields = sTwoRows.fields ∧
      s₁.sensor_data.length = sTwoRows.sensor_data.length ∧
      (∀ i : ℕ, (sTwoRows.index ≤ (i : ℤ) ∧
          (i : ℤ) < sTwoRows.index + sTwoRows.sensor_window) →
        s₁.sensor_data.get? i = (sTwoRows.sensor_data.get? i).map
          (fun r => { r with notes := if "x" = "" then none else some "x" })) ∧
      (∀ i : ℕ, ¬(sTwoRows.index ≤ (i : ℤ) ∧
          (i : ℤ) < sTwoRows.index + sTwoRows.sensor_window) →
        s₁.sensor_data.get? i = sTwoRows.sensor_data.get? i) :=
  ⟨by decide, C6_amended_add_note_whole_window sTwoRows "x" (by decide)⟩

/-- C2 counterexample: loading the three-row file (fixes at rows 0 and 2, no
coordinates at row 1) yields two runs spanning rows [0,0] and [2,2]; marking
the GPS window (which covers both runs) invalid and merging completes with
gps clean and sensor dirty, and rows 0 and 2 carry the encoding of false —
but row 1, although inside [R1.first_row_index, Rk.last_row_index] = [0,2],
still carries the encoding of true, refuting the claim that every record in
that interval is set to false. -/
theorem C2_counterexample :
    loaded3.2.1.gps_data.length = 2 ∧
    ((loaded3.2.1.gps_data.get? 0).map (fun r => (r.first_index, r.last_index))) =
      some (0, 0) ∧
    ((loaded3.2.1.gps_data.get? 1).map (fun r => (r.first_index, r.last_index))) =
      some (2, 2) ∧
    ((marked3.gps_data.get? 0).map GPSData.is_valid) = some false ∧
    ((marked3.gps_data.get? 1).map GPSData.is_valid) = some false ∧
    marked3.data_has_changed = true ∧
    merged3.1.data_has_changed = true ∧ merged3.2.data_has_changed = false ∧
    ((merged3.1.sensor_data.get? 0).map SensorRow.is_gps_valid) = some "0" ∧
    ((merged3.1.sensor_data.get? 2).map SensorRow.is_gps_valid) = some "0" ∧
    ((merged3.1.sensor_data.get? 1).map SensorRow.is_gps_valid) = some "1" ∧
    "1" ≠ gpsValidDict false := by
  decide

/-- C2 amended: merge with a clean GPS layer is a no-op notice; with a dirty
layer it completes (reporting once per run), sets the sensor layer dirty,
clears the GPS layer, and writes each run's is_valid encoding into exactly
the rows in that run's [first_row_index, last_row_index]; in particular
after mark_window(valid := false) and merge, every row covered by a run of
the marked window carries the encoding of false — while rows covered by no
run (the gaps between runs) are untouched. -/
theorem C2_amended_merge_marked_runs (s : FullSensorData) (g : WatchGPSData)
    (hv : g.ValidWindow)
    (hb : ∀ run ∈ g.gps_data, 0 ≤ run.first_index ∧
      run.first_index ≤ run.last_index ∧
      run.last_index < (s.sensor_data.length : ℤ))
    (hsep : g.gps_data.Pairwise (fun a b => a.last_index < b.first_index)) :
    (∀ cb, g.data_has_changed = false → s.merge_data_changes cb g = .ok (s, g, 0)) ∧
    (g.data_has_changed = true →
      ∃ s₁ g₂, s.merge_data_changes (some ()) g = .ok (s₁, g₂, g.gps_data.length) ∧
        s₁.data_has_changed = true ∧ g₂.data_has_changed = false ∧
        (∀ (p : ℕ) (run : GPSData) (i : ℕ), g.gps_data.get? p = some run →
          run.first_index ≤ (i : ℤ) → (i : ℤ) ≤ run.last_index →
          (s₁.sensor_data.get? i).map SensorRow.is_gps_valid =
            some (gpsValidDict run.is_valid))) ∧
    (∃ g₁ s₁ g₂, g.mark_window_invalid = .ok g₁ ∧
      s.merge_data_changes (some ()) g₁ = .ok (s₁, g₂, g.gps_data.length) ∧
      s₁.data_has_changed = true ∧ g₂.data_has_changed = false ∧
      (∀ (p : ℕ) (run : GPSData) (i : ℕ),
        g.index ≤ (p : ℤ) → (p : ℤ) < g.index + g.gps_window →
        g.gps_data.get? p = some run →
        run.first_index ≤ (i : ℤ) → (i : ℤ) ≤ run.last_index →
        (s₁.sensor_data.get? i).map SensorRow.is_gps_valid =
          some (gpsValidDict false)) ∧
      (∀ i : ℕ,
        (∀ run ∈ g.gps_data, ¬(run.first_index ≤ (i : ℤ) ∧ (i : ℤ) ≤ run.last_index)) →
        s₁.sensor_data.get? i = s.sensor_data.get? i)) := by
  refine ⟨?_, ?_, ?_⟩
  · intro cb hclean
    unfold FullSensorData.merge_data_changes
    rw [if_pos hclean]
  · intro hdirty
    obtain ⟨s₁, g₂, hmerge, hs₁, hg₂, hcov, _⟩ := merge_marked_spec s g hdirty hb hsep
    exact ⟨s₁, g₂, hmerge, hs₁, hg₂, hcov⟩
  · obtain ⟨g₁, hmark, hhd, hdc, hidx, hds, hw, har, hsr, hlen₁, hchar₁⟩ :=
      mark_window_invalid_ok g hv
    have hspan : ∀ (p : ℕ) (run₁ : GPSData), g₁.gps_data.get? p = some run₁ →
        ∃ run₀, g.gps_data.get? p = some run₀ ∧
          run₁.first_index = run₀.first_index ∧
          run₁.last_index = run₀.last_index := by
      intro p run₁ hp
      rw [hchar₁ p] at hp
      by_cases hc : g.index ≤ (p : ℤ) ∧ (p : ℤ) < g.index + g.gps_window
      · rw [if_pos hc] at hp
        cases ho : g.gps_data.get? p with
        | none => rw [ho] at hp; cases hp
        | some run₀ =>
          rw [ho] at hp
          injection hp with hp
          exact ⟨run₀, rfl, by rw [← hp], by rw [← hp]⟩
      · rw [if_neg hc] at hp
        exact ⟨run₁, hp, rfl, rfl⟩
    have hb₁ : ∀ run ∈ g₁.gps_data, 0 ≤ run.first_index ∧
        run.first_index ≤ run.last_index ∧
        run.last_index < (s.sensor_data.length : ℤ) := by
      intro run hmem
      obtain ⟨p, hp⟩ := List.get?_of_mem hmem
      obtain ⟨run₀, hp0, hf, hl⟩ := hspan p run hp
      have := hb run₀ (List.get?_mem hp0)
      omega
    have hsep₁ : g₁.gps_data.Pairwise (fun a b => a.last_index < b.first_index) := by
      rw [List.pairwise_iff_get]
      intro i j hij
      obtain ⟨a₀, ha0, haf, hal⟩ :=
        hspan i.1 (g₁.gps_data.get i) (List.get?_eq_get i.2)
      obtain ⟨b₀, hb0, hbf, hbl⟩ :=
        hspan j.1 (g₁.gps_data.get j) (List.get?_eq_get j.2)
      have hrel : a₀.last_index < b₀.first_index :=
        pairwise_get?_rel hsep hij ha0 hb0
      omega
    obtain ⟨s₁, g₂, hmerge, hs₁, hg₂, hcov, hgap⟩ :=
      merge_marked_spec s g₁ hdc hb₁ hsep₁
    refine ⟨g₁, s₁, g₂, hmark, by rw [← hlen₁]; exact hmerge, hs₁, hg₂, ?_, ?_⟩
    · intro p run i hp1 hp2 hrun hf hl
      have hp' : g₁.gps_data.get? p = some { run with is_valid := false } := by
        rw [hchar₁ p, if_pos ⟨hp1, hp2⟩, hrun]
        rfl
      exact hcov p _ i hp' hf hl
    · intro i hnone
      apply hgap i
      intro run hmem
      obtain ⟨p, hp⟩ := List.get?_of_mem hmem
      obtain ⟨run₀, hp0, hf, hl⟩ := hspan p run hp
      have hn := hnone run₀ (List.get?_mem hp0)
      intro hcov2
      exact hn ⟨by omega, by omega⟩

/-- Witness for C2 amended on the concretely loaded three-row file, whose
GPS index has two separated runs covered by the current window. -/
theorem C2_amended_merge_marked_runs_witness :
    loaded3.2.1.ValidWindow ∧
    (∀ run ∈ loaded3.2.1.gps_data, 0 ≤ run.first_index ∧
      run.first_index ≤ run.last_index ∧
      run.last_index < (loaded3.1.sensor_data.length : ℤ)) ∧
    List.Pairwise (fun a b => a.last_index < b.first_index) loaded3.2.1.gps_data ∧
    (∃ g₁ s₁ g₂, loaded3.2.1.mark_window_invalid = .ok g₁ ∧
      FullSensorData.merge_data_changes (some ()) loaded3.1 g₁ =
        .ok (s₁, g₂, loaded3.2.1.gps_data.length) ∧
      s₁.data_has_changed = true ∧ g₂.data_has_changed = false ∧
      (∀ (p : ℕ) (run : GPSData) (i : ℕ),
        loaded3.2.1.index ≤ (p : ℤ) →
        (p : ℤ) < loaded3.2.1.index + loaded3.2.1.gps_window →
        loaded3.2.1.gps_data.get? p = some run →
        run.first_index ≤ (i : ℤ) → (i : ℤ) ≤ run.last_index →
        (s₁.sensor_data.get? i).map SensorRow.is_gps_valid =
          some (gpsValidDict false)) ∧
      (∀ i : ℕ,
        (∀ run ∈ loaded3.2.1.gps_data,
          ¬(run.first_index ≤ (i : ℤ) ∧ (i : ℤ) ≤ run.last_index)) →
        s₁.sensor_data.get? i = loaded3.1.sensor_data.get? i)) :=
  ⟨by decide, by decide, by decide,
    (C2_amended_merge_marked_runs loaded3.1 loaded3.2.1 (by decide) (by decide)
      (by decide)).2.2⟩

/-- C3 (evaluation at the failing input): the claim requires that a one-row
file with present, trivially pairwise-distinct coordinates produce exactly
one GPS run with count 1 — but when that single fix sits exactly at
(-1.0, -1.0), load_data produces zero runs, because its cur_lat and cur_lon
locals are initialised to the sentinel -1.0 (data.py lines 653 to 654) and
the first row compares equal to the sentinel. -/
theorem C3_sentinel_failing_input :
    sentinelFile.length = 1 ∧
    ((sentinelFile.get? 0).map (fun r => (r.latitude, r.longitude))) =
      some (some (-1), some (-1)) ∧
    (FullSensorData.load_data (some ()) bareSchema ["stamp"] sentinelFile
      FullSensorData.init WatchGPSData.init).2.1.gps_data.length = 0 ∧
    (0 : ℕ) ≠ 1 := by
  decide

end SWViz
